import Mathlib

/-!
# lan-watcher — verification of the specification against the code

A shallow embedding in Lean 4 of the parts of the `lan-watcher` repository
that the specification talks about, together with theorems settling the
claims drawn from the specification.

The repository that is present consists of the frontend (TypeScript/React):
the timeline generator (`frontend/src/services/mockData.ts`), the timeline
chart and page consumers (`TimelineChart.tsx`, `TimelinePage.tsx`), the
device store (`useDeviceStore.ts`), the time utilities (`utils/timeUtils.ts`)
and the type declarations (`types/index.ts`).  The backend engine itself
(scan-session manager, `test_network`) is not present; where a claim depends
on it, the missing operation is modelled from the specification and marked
`Modelled from the spec:` in its doc comment.

Conventions:
* Times are rationals (`ℚ`).  For the timeline generator the unit is hours
  from the start of the queried day (the source uses `addHours`); for the
  chart the unit is milliseconds from the start of the day.
* Epoch instants for the date-parsing functions are integers (milliseconds).
* `Math.random()` is modelled by an explicit stream of rationals, one value
  consumed per draw; the hypotheses of the theorems restrict the values to
  `[0, 1)` exactly as `Math.random` guarantees.
-/

/-! ## Timeline data model (`types/index.ts`)

`DayTimelineData.devices[i].online_periods` entries:
`{ start_time: string; end_time: string | null }`.  Times are embedded as
rationals. -/

/-- One online period of a device, `{start_time, end_time|null}`
(`types/index.ts`, `DayTimelineData` / `OnlinePeriod` of the spec). -/
structure OnlinePeriod where
  start_time : ℚ
  end_time : Option ℚ
deriving Repr, DecidableEq

/-- One device entry of a `DayTimelineData` (`types/index.ts`):
`{device_id, device_name, ip_address, online_periods}`. -/
structure TimelineDevice where
  device_id : ℕ
  device_name : String
  ip_address : String
  online_periods : List OnlinePeriod
deriving Repr, DecidableEq

/-! ## The timeline generator (`frontend/src/services/mockData.ts`,
`generateMockTimelineData`)

The source walks from `dayStart` towards `dayEnd`, alternating online and
offline stretches whose lengths come from `Math.random()`:

```js
let currentTime = dayStart;
let isOnline = Math.random() > 0.5;
while (currentTime < dayEnd) {
  if (isOnline) {
    const duration = 1 + Math.random() * 3;            // hours
    const endTime = addHours(currentTime, duration);
    const actualEndTime = endTime > dayEnd ? dayEnd : endTime;
    online_periods.push({ start_time: currentTime,
      end_time: actualEndTime >= dayEnd ? null : actualEndTime });
    currentTime = actualEndTime;
  } else {
    const duration = 0.5 + Math.random() * 1.5;        // hours
    currentTime = addHours(currentTime, duration);
  }
  isOnline = !isOnline;
  if (currentTime >= dayEnd) break;
}
if (online_periods.length === 0) {
  const startTime = addHours(dayStart, Math.random() * 8);
  const endTime = addHours(startTime, 1 + Math.random() * 4);
  online_periods.push({ start_time: startTime,
    end_time: endTime > dayEnd ? null : endTime });
}
```

The random source is made explicit: a finite list of rationals, one value
consumed per `Math.random()` call; the recursion is structural on that
list (the real loop always terminates because every stretch is at least
half an hour long; a long enough stream reproduces any real run).  The
function returns the periods together with the unconsumed rest of the
stream, so that the fallback branch draws exactly the next values. -/

/-- The `while` loop of `generateMockTimelineData`: current time, current
online flag, remaining random stream ↦ (emitted periods, remaining stream).
Times are hours relative to an arbitrary origin; `dayEnd` is the loop
bound (`endOfDay`). -/
def genLoop (dayEnd : ℚ) : ℚ → Bool → List ℚ → List OnlinePeriod × List ℚ
  | _, _, [] => ([], [])
  | t, isOnline, r :: rs =>
    if t < dayEnd then
      if isOnline then
        let endTime := t + (1 + r * 3)
        let actualEndTime := if endTime > dayEnd then dayEnd else endTime
        if actualEndTime ≥ dayEnd then
          ([⟨t, none⟩], rs)
        else
          let pr := genLoop dayEnd actualEndTime false rs
          (⟨t, some actualEndTime⟩ :: pr.1, pr.2)
      else
        let t' := t + (1/2 + r * (3/2))
        if t' ≥ dayEnd then ([], rs) else genLoop dayEnd t' true rs
    else ([], r :: rs)

/-- Embedding of `generateMockTimelineData` for one device
(`frontend/src/services/mockData.ts`): the initial-state draw, the walk
loop, and the "ensure at least one period" fallback.  `dayStart`/`dayEnd`
are the day bounds in hours, `rs` the stream of `Math.random()` values. -/
def generateMockTimelineData (dayStart dayEnd : ℚ) (rs : List ℚ) :
    List OnlinePeriod :=
  let r0 := rs.headD 0
  let rest := rs.tail
  let res := genLoop dayEnd dayStart (decide (r0 > 1/2)) rest
  if res.1.isEmpty then
    let ra := res.2.headD 0
    let rb := res.2.tail.headD 0
    let startTime := dayStart + ra * 8
    let endTime := startTime + (1 + rb * 4)
    [⟨startTime, if endTime > dayEnd then none else some endTime⟩]
  else res.1

example :
    generateMockTimelineData 0 24 [(3:ℚ)/5, 0] = [⟨0, some 1⟩] := by
  norm_num [generateMockTimelineData, genLoop]

example :
    generateMockTimelineData 0 24 [(3:ℚ)/5, 1] = [⟨0, some 4⟩] := by
  norm_num [generateMockTimelineData, genLoop]

example :
    generateMockTimelineData 0 24 [(3:ℚ)/5, 8] = [⟨0, none⟩] := by
  norm_num [generateMockTimelineData, genLoop]

example :
    generateMockTimelineData 0 24 [(0:ℚ), 0, 1/2, 1] =
      [⟨1/2, some 3⟩] := by
  norm_num [generateMockTimelineData, genLoop]

/-! ## Ordering invariants of the generated periods (claim C1) -/

/-- Relation read off the claim: `p` closes no later than `q` starts — every concrete `end_time` of `p`
is at or before `q.start_time`.  This is the claim's reading of
"non-overlapping and time-ordered". -/
def periodClosesBefore (p q : OnlinePeriod) : Prop :=
  ∀ e, p.end_time = some e → e ≤ q.start_time

/-- A period list is time-ordered and mutually non-overlapping: each
period's start is at or after the previous period's end. -/
def periodsOrdered (ps : List OnlinePeriod) : Prop :=
  List.Chain' periodClosesBefore ps

/-- Number of periods with `end_time = null` in a list. -/
def openPeriodCount (ps : List OnlinePeriod) : ℕ :=
  (ps.filter (fun p => p.end_time.isNone)).length

/-- Every period emitted by the walk loop starts at or after the loop's
current time (the random draws of `Math.random()` are nonnegative). -/
theorem genLoop_start_ge (dayEnd : ℚ) (rs : List ℚ) :
    ∀ (t : ℚ) (b : Bool), (∀ r ∈ rs, 0 ≤ r) →
      ∀ p ∈ (genLoop dayEnd t b rs).1, t ≤ p.start_time := by
  induction rs with
  | nil =>
    intro t b _ p hp
    simp [genLoop] at hp
  | cons r rs ih =>
    intro t b hr p hp
    have hr0 : 0 ≤ r := hr r (by simp)
    have hrs : ∀ x ∈ rs, 0 ≤ x := fun x hx => hr x (by simp [hx])
    by_cases h1 : t < dayEnd
    · cases b with
      | false =>
        simp only [genLoop, if_pos h1, Bool.false_eq_true, if_false] at hp
        by_cases h2 : t + (1/2 + r * (3/2)) ≥ dayEnd
        · rw [if_pos h2] at hp; simp at hp
        · rw [if_neg h2] at hp
          have := ih _ true hrs p hp
          nlinarith
      | true =>
        simp only [genLoop, if_pos h1, if_true] at hp
        by_cases h3 : t + (1 + r * 3) > dayEnd
        · rw [if_pos h3, if_pos (le_refl dayEnd)] at hp
          simp at hp; subst hp; simp
        · rw [if_neg h3] at hp
          by_cases h4 : t + (1 + r * 3) ≥ dayEnd
          · rw [if_pos h4] at hp; simp at hp; subst hp; simp
          · rw [if_neg h4] at hp
            simp only [List.mem_cons] at hp
            rcases hp with hp | hp
            · subst hp; simp
            · have := ih _ false hrs p hp
              nlinarith
    · simp only [genLoop, if_neg h1] at hp
      simp at hp

/-- The walk loop emits a time-ordered, non-overlapping period list. -/
theorem genLoop_chain (dayEnd : ℚ) (rs : List ℚ) :
    ∀ (t : ℚ) (b : Bool), (∀ r ∈ rs, 0 ≤ r) →
      List.Chain' periodClosesBefore (genLoop dayEnd t b rs).1 := by
  induction rs with
  | nil => intro t b _; simp [genLoop]
  | cons r rs ih =>
    intro t b hr
    have hr0 : 0 ≤ r := hr r (by simp)
    have hrs : ∀ x ∈ rs, 0 ≤ x := fun x hx => hr x (by simp [hx])
    by_cases h1 : t < dayEnd
    · cases b with
      | false =>
        simp only [genLoop, if_pos h1, Bool.false_eq_true, if_false]
        by_cases h2 : t + (1/2 + r * (3/2)) ≥ dayEnd
        · rw [if_pos h2]; simp
        · rw [if_neg h2]; exact ih _ true hrs
      | true =>
        simp only [genLoop, if_pos h1, if_true]
        by_cases h3 : t + (1 + r * 3) > dayEnd
        · rw [if_pos h3, if_pos (le_refl dayEnd)]; simp
        · rw [if_neg h3]
          by_cases h4 : t + (1 + r * 3) ≥ dayEnd
          · rw [if_pos h4]; simp
          · rw [if_neg h4]
            refine List.chain'_cons'.mpr ⟨?_, ih _ false hrs⟩
            intro q hq e he
            have hq' : q ∈ (genLoop dayEnd (t + (1 + r * 3)) false rs).1 :=
              List.mem_of_mem_head? hq
            have hge := genLoop_start_ge dayEnd rs _ false hrs q hq'
            simp at he
            rw [← he]
            exact hge
    · simp [genLoop, if_neg h1]

/-- The walk loop emits at most one period with `end_time = null`
(a `null` end is only produced in the branch that also ends the loop). -/
theorem genLoop_open_le_one (dayEnd : ℚ) (rs : List ℚ) :
    ∀ (t : ℚ) (b : Bool), openPeriodCount (genLoop dayEnd t b rs).1 ≤ 1 := by
  induction rs with
  | nil => intro t b; simp [genLoop, openPeriodCount]
  | cons r rs ih =>
    intro t b
    by_cases h1 : t < dayEnd
    · cases b with
      | false =>
        simp only [genLoop, if_pos h1, Bool.false_eq_true, if_false]
        by_cases h2 : t + (1/2 + r * (3/2)) ≥ dayEnd
        · rw [if_pos h2]; simp [openPeriodCount]
        · rw [if_neg h2]; exact ih _ true
      | true =>
        simp only [genLoop, if_pos h1, if_true]
        by_cases h3 : t + (1 + r * 3) > dayEnd
        · rw [if_pos h3, if_pos (le_refl dayEnd)]; simp [openPeriodCount]
        · rw [if_neg h3]
          by_cases h4 : t + (1 + r * 3) ≥ dayEnd
          · rw [if_pos h4]; simp [openPeriodCount]
          · rw [if_neg h4]
            simpa [openPeriodCount] using ih _ false
    · simp [genLoop, if_neg h1, openPeriodCount]

/-- Every concrete (non-null) `end_time` the walk loop emits lies strictly
inside the day: the loop closes a period with a concrete time only when
that time is before `dayEnd`. -/
theorem genLoop_end_lt (dayEnd : ℚ) (rs : List ℚ) :
    ∀ (t : ℚ) (b : Bool), ∀ p ∈ (genLoop dayEnd t b rs).1,
      ∀ e, p.end_time = some e → e < dayEnd := by
  induction rs with
  | nil => intro t b p hp; simp [genLoop] at hp
  | cons r rs ih =>
    intro t b p hp e he
    by_cases h1 : t < dayEnd
    · cases b with
      | false =>
        simp only [genLoop, if_pos h1, Bool.false_eq_true, if_false] at hp
        by_cases h2 : t + (1/2 + r * (3/2)) ≥ dayEnd
        · rw [if_pos h2] at hp; simp at hp
        · rw [if_neg h2] at hp
          exact ih _ true p hp e he
      | true =>
        simp only [genLoop, if_pos h1, if_true] at hp
        by_cases h3 : t + (1 + r * 3) > dayEnd
        · rw [if_pos h3, if_pos (le_refl dayEnd)] at hp
          simp at hp; subst hp; simp at he
        · rw [if_neg h3] at hp
          by_cases h4 : t + (1 + r * 3) ≥ dayEnd
          · rw [if_pos h4] at hp; simp at hp; subst hp; simp at he
          · rw [if_neg h4] at hp
            simp only [List.mem_cons] at hp
            rcases hp with hp | hp
            · subst hp; simp at he; subst he; exact lt_of_not_ge h4
            · exact ih _ false p hp e he
    · simp only [genLoop, if_neg h1] at hp
      simp at hp

/-- Every period the walk loop emits with a concrete end ends strictly
after it starts (online stretches last at least one hour). -/
theorem genLoop_start_lt_end (dayEnd : ℚ) (rs : List ℚ) :
    ∀ (t : ℚ) (b : Bool), (∀ r ∈ rs, 0 ≤ r) →
      ∀ p ∈ (genLoop dayEnd t b rs).1,
        ∀ e, p.end_time = some e → p.start_time < e := by
  induction rs with
  | nil => intro t b _ p hp; simp [genLoop] at hp
  | cons r rs ih =>
    intro t b hr p hp e he
    have hr0 : 0 ≤ r := hr r (by simp)
    have hrs : ∀ x ∈ rs, 0 ≤ x := fun x hx => hr x (by simp [hx])
    by_cases h1 : t < dayEnd
    · cases b with
      | false =>
        simp only [genLoop, if_pos h1, Bool.false_eq_true, if_false] at hp
        by_cases h2 : t + (1/2 + r * (3/2)) ≥ dayEnd
        · rw [if_pos h2] at hp; simp at hp
        · rw [if_neg h2] at hp
          exact ih _ true hrs p hp e he
      | true =>
        simp only [genLoop, if_pos h1, if_true] at hp
        by_cases h3 : t + (1 + r * 3) > dayEnd
        · rw [if_pos h3, if_pos (le_refl dayEnd)] at hp
          simp at hp; subst hp; simp at he
        · rw [if_neg h3] at hp
          by_cases h4 : t + (1 + r * 3) ≥ dayEnd
          · rw [if_pos h4] at hp; simp at hp; subst hp; simp at he
          · rw [if_neg h4] at hp
            simp only [List.mem_cons] at hp
            rcases hp with hp | hp
            · subst hp; simp at he; subst he; simp; nlinarith
            · exact ih _ false hrs p hp e he
    · simp only [genLoop, if_neg h1] at hp
      simp at hp

/-- The stream the walk loop leaves unconsumed is made of values of the
input stream. -/
theorem genLoop_snd_mem (dayEnd : ℚ) (rs : List ℚ) :
    ∀ (t : ℚ) (b : Bool), ∀ x ∈ (genLoop dayEnd t b rs).2, x ∈ rs := by
  induction rs with
  | nil => intro t b x hx; simp [genLoop] at hx
  | cons r rs ih =>
    intro t b x hx
    by_cases h1 : t < dayEnd
    · cases b with
      | false =>
        simp only [genLoop, if_pos h1, Bool.false_eq_true, if_false] at hx
        by_cases h2 : t + (1/2 + r * (3/2)) ≥ dayEnd
        · rw [if_pos h2] at hx; simp at hx; simp [hx]
        · rw [if_neg h2] at hx
          exact List.mem_cons_of_mem r (ih _ true x hx)
      | true =>
        simp only [genLoop, if_pos h1, if_true] at hx
        by_cases h3 : t + (1 + r * 3) > dayEnd
        · rw [if_pos h3, if_pos (le_refl dayEnd)] at hx
          simp at hx; simp [hx]
        · rw [if_neg h3] at hx
          by_cases h4 : t + (1 + r * 3) ≥ dayEnd
          · rw [if_pos h4] at hx; simp at hx; simp [hx]
          · rw [if_neg h4] at hx
            exact List.mem_cons_of_mem r (ih _ false x hx)
    · simp only [genLoop, if_neg h1] at hx
      exact hx

/-- C1.  For every device and every queried day, the `online_periods`
produced by the timeline generator (`generateMockTimelineData`,
`frontend/src/services/mockData.ts`) are time-ordered and mutually
non-overlapping — each period's start is at or after the previous period's
end, and each closed period ends after it starts — and at most one period
in the list has `end_time = null`.  The hypothesis states what
`Math.random()` guarantees of the drawn values (nonnegativity; the upper
bound `< 1` is not needed). -/
theorem mock_timeline_periods_sound (dayStart dayEnd : ℚ) (rs : List ℚ)
    (hrs : ∀ r ∈ rs, 0 ≤ r) :
    periodsOrdered (generateMockTimelineData dayStart dayEnd rs) ∧
    openPeriodCount (generateMockTimelineData dayStart dayEnd rs) ≤ 1 ∧
    (∀ p ∈ generateMockTimelineData dayStart dayEnd rs,
      ∀ e, p.end_time = some e → p.start_time < e) := by
  have htail : ∀ x ∈ rs.tail, 0 ≤ x := fun x hx => hrs x (List.mem_of_mem_tail hx)
  simp only [generateMockTimelineData]
  set res := genLoop dayEnd dayStart (decide (rs.headD 0 > 1/2)) rs.tail with hres
  by_cases he : res.1.isEmpty
  · simp only [he, if_true]
    have hrb : 0 ≤ res.2.tail.headD 0 := by
      cases h : res.2.tail with
      | nil => simp
      | cons a l =>
        simp only [List.headD_cons]
        have ha : a ∈ res.2 := List.mem_of_mem_tail (h ▸ List.mem_cons_self a l)
        exact htail a (genLoop_snd_mem dayEnd rs.tail _ _ a ha)
    refine ⟨List.chain'_singleton _, ?_, ?_⟩
    · exact le_trans (List.length_filter_le _ _) (by simp)
    · intro p hp e hep
      simp only [List.mem_singleton] at hp
      subst hp
      by_cases hgt :
          dayStart + res.2.headD 0 * 8 + (1 + res.2.tail.headD 0 * 4) > dayEnd
      · simp only [if_pos hgt] at hep
        exact absurd hep (by simp)
      · simp only [if_neg hgt, Option.some.injEq] at hep
        subst hep
        simp only
        nlinarith
  · simp only [he, if_false]
    refine ⟨genLoop_chain dayEnd rs.tail _ _ htail,
      genLoop_open_le_one dayEnd rs.tail _ _,
      genLoop_start_lt_end dayEnd rs.tail _ _ htail⟩

/-- Concrete run of `mock_timeline_periods_sound`: a day of 24 hours and a
stream drawing online/offline stretches. -/
theorem mock_timeline_periods_sound_witness :
    periodsOrdered (generateMockTimelineData 0 24 [3/5, 1/4, 1/2, 0, 2/5]) ∧
    openPeriodCount (generateMockTimelineData 0 24 [3/5, 1/4, 1/2, 0, 2/5]) ≤ 1 ∧
    (∀ p ∈ generateMockTimelineData 0 24 [3/5, 1/4, 1/2, 0, 2/5],
      ∀ e, p.end_time = some e → p.start_time < e) :=
  mock_timeline_periods_sound 0 24 [3/5, 1/4, 1/2, 0, 2/5] (by norm_num)

/-! ## Determinism of the timeline reconstruction (claim C3)

The reconstruction in the code draws fresh `Math.random()` values on every
run: the day alone does not determine the output.  With the random stream
made explicit, the function is deterministic in the day *and* the stream. -/

/-- C3 fails as stated: two runs for the same device set and the same day
(`dayStart = 0`, `dayEnd = 24`) that draw different `Math.random()` values
produce different `online_periods` lists, so the timeline-building function
is not deterministic in the device set and day alone. -/
theorem mock_timeline_not_day_deterministic :
    generateMockTimelineData 0 24 [3/5, 0] ≠
      generateMockTimelineData 0 24 [3/5, 1] := by
  have h1 : generateMockTimelineData 0 24 [3/5, 0] = [⟨0, some 1⟩] := by
    norm_num [generateMockTimelineData, genLoop]
  have h2 : generateMockTimelineData 0 24 [3/5, 1] = [⟨0, some 4⟩] := by
    norm_num [generateMockTimelineData, genLoop]
  rw [h1, h2]
  intro h
  have := List.head_eq_of_cons_eq h
  rw [OnlinePeriod.mk.injEq] at this
  have h4 := this.2
  simp at h4

/-- C3 amended.  The timeline reconstruction is deterministic in its full
input — device-independent day bounds and the stream of drawn random
values: two runs over the same day with the same stream yield identical
`OnlinePeriod` lists.  (Determinism in the day alone fails, see
`mock_timeline_not_day_deterministic`.) -/
theorem mock_timeline_deterministic_in_day_and_stream
    (dayStart dayEnd : ℚ) (rs₁ rs₂ : List ℚ) (h : rs₁ = rs₂) :
    generateMockTimelineData dayStart dayEnd rs₁ =
      generateMockTimelineData dayStart dayEnd rs₂ := by
  rw [h]

/-- Concrete run of `mock_timeline_deterministic_in_day_and_stream`. -/
theorem mock_timeline_deterministic_witness :
    generateMockTimelineData 0 24 [3/5, 0] =
      generateMockTimelineData 0 24 [3/5, 0] :=
  mock_timeline_deterministic_in_day_and_stream 0 24 [3/5, 0] [3/5, 0] rfl

/-! ## Consumers of `end_time = null` (claim C2)

`TimelineChart.tsx` samples each day at 96 fifteen-minute points
(`addMinutes(dayStart, i * 15)`, `i < 96`) and treats a device as online at
a sample time when some period covers it, an absent `end_time` standing for
`endOfDay` (lines 67–79):

```js
const isOnline = device.online_periods.some(period => {
  const startTime = parseISO(period.start_time);
  const endTime = period.end_time ? parseISO(period.end_time)
                                  : endOfDay(parseISO(data.date));
  return currentTime >= startTime && currentTime <= endTime;
});
```

`TimelinePage.tsx` counts the currently-online devices (lines 131–137):

```js
timelineData.devices.filter(d =>
  d.online_periods.some(p => p.end_time === null)
).length
```

Times are embedded in milliseconds from the start of the day. -/

/-- Value of `date-fns` `endOfDay` relative to `startOfDay`, in ms (23:59:59.999). -/
def endOfDayMs : ℚ := 86399999

/-- The chart's `i`-th sample time, `addMinutes(dayStart, i * 15)`, in ms
from the start of the day. -/
def sampleTime (i : ℕ) : ℚ := 900000 * i

/-- The chart's per-device, per-sample online test (`TimelineChart.tsx`
lines 67–79): some period covers `t`, an absent end standing for
`endOfDay`. -/
def chartDeviceIsOnlineAt (endOfDay : ℚ) (periods : List OnlinePeriod)
    (t : ℚ) : Bool :=
  periods.any (fun p =>
    decide (p.start_time ≤ t) && decide (t ≤ p.end_time.getD endOfDay))

/-- The page's currently-online device list (`TimelinePage.tsx` lines
131–137): devices with some `end_time = null` period. -/
def timelineCurrentOnlineDevices (devs : List TimelineDevice) :
    List TimelineDevice :=
  devs.filter (fun d => d.online_periods.any (fun p => p.end_time.isNone))

/-- The count the page displays as "当前在线" (currently online). -/
def timelineCurrentOnlineCount (devs : List TimelineDevice) : ℕ :=
  (timelineCurrentOnlineDevices devs).length

/-- C2.  A period not ending inside the query day is emitted with
`end_time = null` (equivalently: every concrete `end_time` the generator
emits lies inside the day); the chart treats a device having a
`end_time = null` period as online at every sample time from the period's
start through the end of the day; and the page counts a device as
currently online exactly when some period has `end_time = null`. -/
theorem null_end_consumed_as_open_through_day_end
    (dayStart dayEnd : ℚ) (rs : List ℚ)
    (periods : List OnlinePeriod) (p : OnlinePeriod) (i : ℕ)
    (devs : List TimelineDevice) (d : TimelineDevice)
    (hp : p ∈ periods) (hnull : p.end_time = none) (hi : i < 96)
    (hstart : p.start_time ≤ sampleTime i) (hd : d ∈ devs) :
    (∀ q ∈ generateMockTimelineData dayStart dayEnd rs,
        ∀ e, q.end_time = some e → e ≤ dayEnd) ∧
    chartDeviceIsOnlineAt endOfDayMs periods (sampleTime i) = true ∧
    (d ∈ timelineCurrentOnlineDevices devs ↔
      ∃ q ∈ d.online_periods, q.end_time = none) := by
  refine ⟨?_, ?_, ?_⟩
  · -- every concrete end the generator emits is inside the day
    simp only [generateMockTimelineData]
    set res := genLoop dayEnd dayStart (decide (rs.headD 0 > 1/2)) rs.tail
      with hres
    by_cases he : res.1.isEmpty
    · simp only [he, if_true]
      intro q hq e hqe
      simp only [List.mem_singleton] at hq
      subst hq
      by_cases hgt :
          dayStart + res.2.headD 0 * 8 + (1 + res.2.tail.headD 0 * 4) > dayEnd
      · simp only [if_pos hgt] at hqe
        exact absurd hqe (by simp)
      · simp only [if_neg hgt, Option.some.injEq] at hqe
        subst hqe
        exact le_of_not_gt hgt
    · simp only [he, if_false]
      intro q hq e hqe
      exact le_of_lt (genLoop_end_lt dayEnd rs.tail _ _ q hq e hqe)
  · -- the chart marks the device online at every covered sample
    have hsample : sampleTime i ≤ endOfDayMs := by
      have hi' : (i : ℚ) ≤ 95 := by
        exact_mod_cast Nat.lt_succ_iff.mp hi
      simp only [sampleTime, endOfDayMs]
      nlinarith
    refine List.any_eq_true.mpr ⟨p, hp, ?_⟩
    simp only [hnull, Option.getD_none, Bool.and_eq_true, decide_eq_true_eq]
    exact ⟨hstart, hsample⟩
  · -- the page counts the device iff some period is open
    simp [timelineCurrentOnlineDevices, List.mem_filter, hd,
      Option.isNone_iff_eq_none]

/-- Concrete run of `null_end_consumed_as_open_through_day_end`: a period
open at the day's end, the chart's 01:00 sample, and a one-device page. -/
theorem null_end_consumed_witness :
    (∀ q ∈ generateMockTimelineData 0 24 [3/5, 8],
        ∀ e, q.end_time = some e → e ≤ 24) ∧
    chartDeviceIsOnlineAt endOfDayMs [⟨0, none⟩] (sampleTime 4) = true ∧
    (⟨3, "iphone-12", "192.168.1.20", [⟨0, none⟩]⟩ ∈
        timelineCurrentOnlineDevices
          [⟨3, "iphone-12", "192.168.1.20", [⟨0, none⟩]⟩] ↔
      ∃ q ∈ ([⟨0, none⟩] : List OnlinePeriod), q.end_time = none) :=
  null_end_consumed_as_open_through_day_end 0 24 [3/5, 8]
    [⟨0, none⟩] ⟨0, none⟩ 4
    [⟨3, "iphone-12", "192.168.1.20", [⟨0, none⟩]⟩]
    ⟨3, "iphone-12", "192.168.1.20", [⟨0, none⟩]⟩
    (by simp) rfl (by norm_num) (by norm_num [sampleTime]) (by simp)

/-! ## Parsing persisted timestamps (claims C4 and C10)

Persisted timestamps are ISO-8601 strings without an offset suffix, e.g.
"2025-06-06T19:49:37" (documented in `utils/timeUtils.ts`).  Such a string
is embedded as its wall-clock reading `wall`: the epoch instant (ms) the
digits denote when read as UTC.  Under ECMA-262, `new Date(s + "Z")`
yields exactly `wall`, while `new Date(s)` on a date-time string without
offset interprets it in the client's local zone and yields
`wall - tzOffset`, where `tzOffset` is the client's offset east of UTC
in ms. -/

/-- JS `new Date(s + "Z")` on a no-offset timestamp string: the instant is
the string's wall-clock reading taken as UTC. -/
def parseWithUTCDesignator (wall : ℤ) : ℤ := wall

/-- JS `new Date(s)` on a no-offset date-time string: ECMA-262 local-time
interpretation, shifting the wall-clock reading by the client's zone
offset. -/
def parseWithoutDesignator (wall tzOffset : ℤ) : ℤ := wall - tzOffset

/-- Parse step of `formatLastSeen` in `utils/timeUtils.ts` (line 14):
`new Date(lastSeen + 'Z')` — the code supplies the UTC designator before
constructing the `Date`. -/
def timeUtilsParseInstant (wall tzOffset : ℤ) : ℤ :=
  parseWithUTCDesignator wall

/-- Parse step of the inline `formatLastSeen` of the legacy DeviceTable
(`TimelineChart.tsx` line 335): `new Date(lastSeen)` — no designator is
supplied, so the string is read in the client's local zone. -/
def deviceTableParseInstant (wall tzOffset : ℤ) : ℤ :=
  parseWithoutDesignator wall tzOffset

/-- C4 fails on the code.  For the stored timestamp "2025-06-06T19:49:37"
(wall-clock reading 1749239377000 ms) on a client at UTC+8
(`tzOffset = 28800000` ms), the DeviceTable's inline `formatLastSeen`
parses a different instant than `utils/timeUtils.ts` does: the inline
consumer does not supply the UTC designator, contradicting the
documented convention of `timeUtils.ts` ("添加Z后缀明确指定为UTC") and the
spec's "consumers must treat them as UTC". -/
theorem timestamp_consumers_disagree :
    deviceTableParseInstant 1749239377000 28800000 ≠
      timeUtilsParseInstant 1749239377000 28800000 ∧
    timeUtilsParseInstant 1749239377000 28800000 = 1749239377000 ∧
    deviceTableParseInstant 1749239377000 28800000 = 1749210577000 := by
  refine ⟨?_, rfl, rfl⟩
  decide

/-! ## The relative-time formatter (`utils/timeUtils.ts`, `formatLastSeen`)

```js
const lastSeenDate = new Date(lastSeen + 'Z');
const nowUtc = new Date();
const diffMs = nowUtc.getTime() - lastSeenDate.getTime();
const diffMins = Math.floor(diffMs / 60000);
const diffHours = Math.floor(diffMs / 3600000);
const diffDays = Math.floor(diffMs / 86400000);
if (diffMs < 0) return '刚刚';
if (diffMins < 1) return '刚刚';
if (diffMins < 60) return diffMins + '分钟前';
if (diffHours < 24) return diffHours + '小时前';
if (diffDays < 30) return diffDays + '天前';
return lastSeenDate.toLocaleDateString('zh-CN');
```

The returned strings are represented by a small vocabulary; JS
`Math.floor` of a division by a positive constant is floor division
(`Int.fdiv`). -/

/-- Possible outputs of `formatLastSeen`: "刚刚" (just now), "n分钟前"
(n minutes ago), "n小时前", "n天前", or a locale date string for the
parsed instant. -/
inductive LastSeenLabel where
  | justNow
  | minutesAgo (n : ℤ)
  | hoursAgo (n : ℤ)
  | daysAgo (n : ℤ)
  | calendarDate (instant : ℤ)
deriving Repr, DecidableEq

/-- Embedding of `formatLastSeen` from `utils/timeUtils.ts` (lines 11–41):
`wall` the stored timestamp's wall-clock reading, `tzOffset` the client
zone offset, `nowMs` the current epoch instant (`new Date().getTime()`). -/
def formatLastSeen (wall tzOffset nowMs : ℤ) : LastSeenLabel :=
  let lastSeenDate := timeUtilsParseInstant wall tzOffset
  let diffMs := nowMs - lastSeenDate
  let diffMins := Int.fdiv diffMs 60000
  let diffHours := Int.fdiv diffMs 3600000
  let diffDays := Int.fdiv diffMs 86400000
  if diffMs < 0 then .justNow
  else if diffMins < 1 then .justNow
  else if diffMins < 60 then .minutesAgo diffMins
  else if diffHours < 24 then .hoursAgo diffHours
  else if diffDays < 30 then .daysAgo diffDays
  else .calendarDate lastSeenDate

example : formatLastSeen 0 0 90000 = .minutesAgo 1 := by decide

example : formatLastSeen 0 0 7200000 = .hoursAgo 2 := by decide

/-- C10.  When the stored timestamp parses to an instant strictly later
than the current time (negative elapsed time, e.g. clock skew between
backend and client), `formatLastSeen` returns the "刚刚" (just now) label —
the `diffMs < 0` guard fires before any relative-duration branch. -/
theorem formatLastSeen_future_is_just_now (wall tzOffset nowMs : ℤ)
    (h : nowMs < timeUtilsParseInstant wall tzOffset) :
    formatLastSeen wall tzOffset nowMs = .justNow := by
  have hneg : nowMs - timeUtilsParseInstant wall tzOffset < 0 := by omega
  simp only [formatLastSeen]
  rw [if_pos hneg]

/-- Concrete run of `formatLastSeen_future_is_just_now`: a timestamp one
second in the client's future. -/
theorem formatLastSeen_future_witness :
    formatLastSeen 1749239377000 0 1749239376000 = .justNow :=
  formatLastSeen_future_is_just_now 1749239377000 0 1749239376000 (by decide)

/-! ## Scan status and the manual-scan trigger (claim C5)

`Dashboard.tsx`:

```js
const isScanning = scanStatus?.scanning;
...
<Button onClick={handleStartScan} disabled={isScanning}>
```

A disabled button fires no click handler, so while `scanning` is reported
`true` the UI cannot issue a second scan request.  The engine-side
rejection lives in the backend, which is not in the sources; it is
modelled from the spec below. -/

/-- Scan status reported by the backend (`types/index.ts`, `ScanStatus`):
`{scanning, scan_interval, last_scan_time}`. -/
structure ScanStatus where
  scanning : Bool
  scan_interval : ℤ
  last_scan_time : Option String
deriving Repr, DecidableEq

/-- JS `scanStatus?.scanning` of `Dashboard.tsx` line 51 (optional
chaining: `undefined`, hence falsy, when the status is not loaded). -/
def dashIsScanning (scanStatus : Option ScanStatus) : Bool :=
  match scanStatus with
  | some st => st.scanning
  | none => false

/-- The manual-scan button's `disabled` prop (`Dashboard.tsx` line 134). -/
def dashScanButtonDisabled (scanStatus : Option ScanStatus) : Bool :=
  dashIsScanning scanStatus

/-- Whether pressing the manual-scan button issues a scan request: a
disabled button fires no `onClick`, so a request goes out exactly when the
button is enabled. -/
def dashTriggerIssuesRequest (scanStatus : Option ScanStatus) : Bool :=
  !dashScanButtonDisabled scanStatus

/-- Modelled from the spec: outcome of a manual scan request at the
engine — either a pass is started or the caller receives
`SessionBusyError` ("scan already running"). -/
inductive ScanRequestResult where
  | started
  | sessionBusy
deriving Repr, DecidableEq

/-- Modelled from the spec: the Scan Session Manager's state — whether a
pass is active, and how many ScanSessions have been opened. -/
structure SessionManagerState where
  active : Bool
  openSessionCount : ℕ
deriving Repr, DecidableEq

/-- Modelled from the spec: the engine's manual-scan entry point (absent
from the sources; only the Dashboard caller is present).  "A new manual or
scheduled scan request while one is in progress is rejected with a 'scan
already running' signal, not queued": with a pass active the request
returns `sessionBusy` and the state — in particular the number of opened
ScanSessions — is unchanged; otherwise a pass starts and one new
ScanSession is opened. -/
def requestScan (s : SessionManagerState) :
    ScanRequestResult × SessionManagerState :=
  if s.active then (.sessionBusy, s)
  else (.started, ⟨true, s.openSessionCount + 1⟩)

/-- C5.  Whenever the scan status reports `scanning = true`, the manual
scan button is disabled so no second scan request is issued by the UI;
and (spec-modelled engine side) a request arriving while a pass is active
is answered with the busy signal, is not queued, and opens no second
ScanSession. -/
theorem busy_scan_rejected_not_queued (st : Option ScanStatus)
    (ms : SessionManagerState) (hs : dashIsScanning st = true)
    (hm : ms.active = true) :
    dashScanButtonDisabled st = true ∧
    dashTriggerIssuesRequest st = false ∧
    (requestScan ms).1 = .sessionBusy ∧
    (requestScan ms).2 = ms := by
  refine ⟨hs, ?_, ?_, ?_⟩
  · simp [dashTriggerIssuesRequest, dashScanButtonDisabled, hs]
  · simp [requestScan, hm]
  · simp [requestScan, hm]

/-- Concrete run of `busy_scan_rejected_not_queued`: a loaded status with
`scanning = true` and an engine mid-pass with one open session. -/
theorem busy_scan_rejected_witness :
    dashScanButtonDisabled (some ⟨true, 60, none⟩) = true ∧
    dashTriggerIssuesRequest (some ⟨true, 60, none⟩) = false ∧
    (requestScan ⟨true, 1⟩).1 = .sessionBusy ∧
    (requestScan ⟨true, 1⟩).2 = ⟨true, 1⟩ :=
  busy_scan_rejected_not_queued (some ⟨true, 60, none⟩) ⟨true, 1⟩ rfl rfl

/-! ## Network configuration test (claim C6)

The result shape is declared in `types/index.ts` (lines 161–168):

```ts
export interface NetworkTestResult {
  valid: boolean;
  network_address?: string;
  broadcast_address?: string;
  num_hosts?: number;
  prefix_length?: number;
  error?: string;
}
```

and consumed by `useTestNetworkConfig` (lines 641–658), which branches on
`result.valid` and reads `result.error` in the invalid case.  The
operation itself is backend code absent from the sources and is modelled
from the spec.  Addresses are embedded as 32-bit numbers. -/

/-- Result of `test_network` (`types/index.ts`, `NetworkTestResult`). -/
structure NetworkTestResult where
  valid : Bool
  network_address : Option ℕ
  broadcast_address : Option ℕ
  num_hosts : Option ℕ
  prefix_length : Option ℕ
  error : Option String
deriving Repr, DecidableEq

/-- Splitting a character list at a separator character (JS
`String.prototype.split` with a one-character separator). -/
def splitOnChar (sep : Char) : List Char → List (List Char)
  | [] => [[]]
  | c :: cs =>
    match splitOnChar sep cs with
    | [] => [[c]]
    | g :: gs => if c = sep then [] :: g :: gs else (c :: g) :: gs

/-- Strict decimal parse of a character list: all digits, at least one. -/
def parseNatDigits (s : List Char) : Option ℕ :=
  if s ≠ [] ∧ s.all Char.isDigit then
    some (s.foldl (fun n c => 10 * n + (c.toNat - 48)) 0)
  else none

/-- Modelled from the spec: CIDR parsing for `test_network` (the Subnet
Resolver is backend code absent from the sources).  Accepts
`a.b.c.d/p` with octets in 0–255 and prefix in 0–32; returns the address
as a 32-bit number and the prefix, or an explanatory failure. -/
def parseCIDR (s : String) : Except String (ℕ × ℕ) :=
  match splitOnChar '/' s.data with
  | [ipStr, preStr] =>
    match splitOnChar '.' ipStr with
    | [a, b, c, d] =>
      match parseNatDigits a, parseNatDigits b, parseNatDigits c,
          parseNatDigits d with
      | some a', some b', some c', some d' =>
        if a' ≤ 255 ∧ b' ≤ 255 ∧ c' ≤ 255 ∧ d' ≤ 255 then
          match parseNatDigits preStr with
          | some p =>
            if p ≤ 32 then
              Except.ok (((a' * 256 + b') * 256 + c') * 256 + d', p)
            else Except.error "invalid prefix length"
          | none => Except.error "invalid prefix length"
        else Except.error "invalid IP address"
      | _, _, _, _ => Except.error "invalid IP address"
    | _ => Except.error "invalid IP address"
  | _ => Except.error "invalid CIDR format"

/-- Modelled from the spec: `test_network` — "returns network address,
broadcast address, host count, and prefix length, or an explanatory
failure — without performing any probing".  The function is pure (no
probing) and total; host count is the usable-host count
`2^(32-p) - 2`, or the full block for /31 and /32. -/
def test_network (cidr : String) : NetworkTestResult :=
  match parseCIDR cidr with
  | Except.error e => ⟨false, none, none, none, none, some e⟩
  | Except.ok (ip, p) =>
    let blockSize := 2 ^ (32 - p)
    let network := ip / blockSize * blockSize
    let broadcast := network + blockSize - 1
    let hosts := if 31 ≤ p then blockSize else blockSize - 2
    ⟨true, some network, some broadcast, some hosts, some p, none⟩

example :
    test_network "192.168.1.0/24" =
      ⟨true, some 3232235776, some 3232236031, some 254, some 24, none⟩ := by
  decide

example : (test_network "not a cidr").valid = false := by decide

example : (test_network "192.168.1.0/33").error =
    some "invalid prefix length" := by decide

/-- C6.  `test_network` never raises: for every input CIDR string it
returns either a success result carrying `network_address`,
`broadcast_address`, `num_hosts` and `prefix_length` (`valid = true`, no
error), or an explanatory failure carrying an error message
(`valid = false`); being a pure total function, it performs no probing. -/
theorem test_network_total_shape (cidr : String) :
    ((test_network cidr).valid = true ∧
      (test_network cidr).network_address.isSome = true ∧
      (test_network cidr).broadcast_address.isSome = true ∧
      (test_network cidr).num_hosts.isSome = true ∧
      (test_network cidr).prefix_length.isSome = true ∧
      (test_network cidr).error = none) ∨
    ((test_network cidr).valid = false ∧
      (test_network cidr).error.isSome = true ∧
      (test_network cidr).network_address = none) := by
  unfold test_network
  cases parseCIDR cidr with
  | error e => right; simp
  | ok v =>
    left
    obtain ⟨ip, p⟩ := v
    simp

/-! ## Scan report status (claim C7) -/

/-- Status values of a Scan Report (`types/index.ts`, `ScanResult`):
`status: "success" | "error"`. -/
inductive ScanResultStatus where
  | success
  | error
deriving Repr, DecidableEq

/-- Embedding of `ScanResult` (`types/index.ts`, lines 39–46): the report
produced per scan pass.  The describing fields are optional in the
declared interface. -/
structure ScanResult where
  status : ScanResultStatus
  message : Option String
  subnet : Option String
  devices_found : Option ℕ
  scan_type : Option String
  duration : Option ℚ
deriving Repr, DecidableEq

/-- C7.  Every Scan Report has a `status` that is exactly `success` or
`error` — the declared union admits no other value — together with the
`subnet`, `devices_found`, `scan_type` and `duration` fields describing
the pass (declared optional in the interface). -/
theorem scan_report_status_success_or_error (r : ScanResult) :
    r.status = ScanResultStatus.success ∨
      r.status = ScanResultStatus.error := by
  cases h : r.status
  · left; rfl
  · right; rfl

/-! ## The device store (`store/useDeviceStore.ts`, claims C8 and C9)

State and actions of the zustand store.  JS string operations are embedded
over the character data: `toLowerCase` maps `Char.toLower`, `includes` is
substring containment, `trim` strips whitespace at both ends (only its
truthiness is consumed). -/

/-- JS `String.prototype.toLowerCase` (character-wise lowering). -/
def jsToLower (s : String) : String := ⟨s.data.map Char.toLower⟩

/-- JS `String.prototype.includes`: `q` occurs contiguously in `s`. -/
def jsIncludes (s q : String) : Bool := decide (q.data <:+: s.data)

/-- JS `String.prototype.trim`: strip whitespace at both ends. -/
def jsTrim (s : String) : String :=
  ⟨((s.data.dropWhile Char.isWhitespace).reverse.dropWhile
      Char.isWhitespace).reverse⟩

/-- Embedding of the `Device` record (`types/index.ts`). -/
structure Device where
  id : ℕ
  ip_address : String
  mac_address : Option String
  hostname : Option String
  device_type : Option String
  vendor : Option String
  custom_name : Option String
  first_seen : String
  last_seen : String
  is_online : Bool
  open_ports : Option String
deriving Repr, DecidableEq

/-- Embedding of `NetworkStats` (`types/index.ts`). -/
structure NetworkStats where
  total_devices : ℕ
  online_devices : ℕ
  offline_devices : ℕ
  recent_scans : ℕ
deriving Repr, DecidableEq

/-- Embedding of `ScanSession` (`types/index.ts`). -/
structure ScanSession where
  id : ℕ
  start_time : String
  end_time : Option String
  subnet : String
  devices_found : ℕ
  scan_type : String
deriving Repr, DecidableEq

/-- The store's status filter: `'all' | 'online' | 'offline'`. -/
inductive DeviceFilter where
  | all
  | online
  | offline
deriving Repr, DecidableEq

/-- State of the device store (`useDeviceStore.ts`, the non-action
fields). -/
structure DeviceStoreState where
  devices : List Device
  onlineDevices : List Device
  networkStats : Option NetworkStats
  scanStatus : Option ScanStatus
  scanSessions : List ScanSession
  searchQuery : String
  selectedDevice : Option Device
  isLoading : Bool
  error : Option String
  filteredDevices : List Device
  deviceFilter : DeviceFilter
deriving Repr, DecidableEq

/-- The `initialState` object of `useDeviceStore.ts`. -/
def initialStoreState : DeviceStoreState :=
  ⟨[], [], none, none, [], "", none, false, none, [], DeviceFilter.all⟩

/-- One disjunct of the search test: a nullable field matches when it is
present and its lowercasing contains the query (`device.field &&
device.field.toLowerCase().includes(query)`). -/
def matchOpt (query : String) : Option String → Bool
  | some s => jsIncludes (jsToLower s) query
  | none => false

/-- The search predicate of `updateFilteredDevices` (`useDeviceStore.ts`
lines 118–125); `query` is already lowercased. -/
def matchesQuery (query : String) (d : Device) : Bool :=
  jsIncludes (jsToLower d.ip_address) query ||
  matchOpt query d.mac_address ||
  matchOpt query d.hostname ||
  matchOpt query d.custom_name ||
  matchOpt query d.vendor ||
  matchOpt query d.device_type

/-- The status-filter stage of `updateFilteredDevices` (lines 108–113). -/
def statusFiltered (f : DeviceFilter) (ds : List Device) : List Device :=
  match f with
  | DeviceFilter.all => ds
  | DeviceFilter.online => ds.filter (fun d => d.is_online)
  | DeviceFilter.offline => ds.filter (fun d => !d.is_online)

/-- The full body of `updateFilteredDevices` (lines 104–128): status
filter, then — when the trimmed query is nonempty — the lowercased search
filter. -/
def computeFilteredDevices (ds : List Device) (query : String)
    (f : DeviceFilter) : List Device :=
  let filtered := statusFiltered f ds
  if jsTrim query ≠ "" then
    filtered.filter (matchesQuery (jsToLower query))
  else filtered

/-- The store's internal `updateFilteredDevices` action: recompute
`filteredDevices` from the current `devices`, `searchQuery` and
`deviceFilter`. -/
def updateFilteredDevices (s : DeviceStoreState) : DeviceStoreState :=
  { s with filteredDevices :=
      computeFilteredDevices s.devices s.searchQuery s.deviceFilter }

/-- Action `setDevices` (lines 60–64). -/
def setDevices (ds : List Device) (s : DeviceStoreState) : DeviceStoreState :=
  updateFilteredDevices { s with devices := ds }

/-- Action `setSearchQuery` (lines 74–77). -/
def setSearchQuery (q : String) (s : DeviceStoreState) : DeviceStoreState :=
  updateFilteredDevices { s with searchQuery := q }

/-- Action `setDeviceFilter` (lines 81–84). -/
def setDeviceFilter (f : DeviceFilter) (s : DeviceStoreState) :
    DeviceStoreState :=
  updateFilteredDevices { s with deviceFilter := f }

/-- A `Partial<Device>`: each field optionally present; for fields that
are themselves nullable a present value may again be null. -/
structure DeviceUpdate where
  id : Option ℕ := none
  ip_address : Option String := none
  mac_address : Option (Option String) := none
  hostname : Option (Option String) := none
  device_type : Option (Option String) := none
  vendor : Option (Option String) := none
  custom_name : Option (Option String) := none
  first_seen : Option String := none
  last_seen : Option String := none
  is_online : Option Bool := none
  open_ports : Option (Option String) := none
deriving Repr, DecidableEq

/-- JS object spread `{ ...device, ...updates }`: present update fields
override the device's. -/
def mergeDevice (d : Device) (u : DeviceUpdate) : Device where
  id := u.id.getD d.id
  ip_address := u.ip_address.getD d.ip_address
  mac_address := u.mac_address.getD d.mac_address
  hostname := u.hostname.getD d.hostname
  device_type := u.device_type.getD d.device_type
  vendor := u.vendor.getD d.vendor
  custom_name := u.custom_name.getD d.custom_name
  first_seen := u.first_seen.getD d.first_seen
  last_seen := u.last_seen.getD d.last_seen
  is_online := u.is_online.getD d.is_online
  open_ports := u.open_ports.getD d.open_ports

/-- Action `updateDevice` (lines 90–97): merge the update into the device
with the given id, then recompute the filtered list. -/
def updateDevice (deviceId : ℕ) (u : DeviceUpdate) (s : DeviceStoreState) :
    DeviceStoreState :=
  updateFilteredDevices
    { s with devices :=
        s.devices.map (fun d => if d.id = deviceId then mergeDevice d u
          else d) }

/-- The status-filter stage only keeps devices of the input list. -/
theorem statusFiltered_subset (f : DeviceFilter) (ds : List Device) :
    ∀ d ∈ statusFiltered f ds, d ∈ ds := by
  cases f with
  | all => intro d hd; exact hd
  | online => intro d hd; exact List.mem_of_mem_filter hd
  | offline => intro d hd; exact List.mem_of_mem_filter hd

/-- The recomputed filtered list only keeps devices of the input list. -/
theorem computeFilteredDevices_subset (ds : List Device) (q : String)
    (f : DeviceFilter) : ∀ d ∈ computeFilteredDevices ds q f, d ∈ ds := by
  intro d hd
  unfold computeFilteredDevices at hd
  by_cases hq : jsTrim q ≠ ""
  · rw [if_pos hq] at hd
    exact statusFiltered_subset f ds d (List.mem_of_mem_filter hd)
  · rw [if_neg hq] at hd
    exact statusFiltered_subset f ds d hd

/-- C8.  After each of `setDevices`, `setSearchQuery`, `setDeviceFilter`
and `updateDevice`, the stored `filteredDevices` equals the status filter
followed by the search filter applied to the stored `devices` under the
stored `searchQuery` and `deviceFilter` — every such action ends in
`updateFilteredDevices` — and is in particular a subset of `devices`. -/
theorem store_filtered_in_sync (s : DeviceStoreState) (ds : List Device)
    (q : String) (f : DeviceFilter) (i : ℕ) (u : DeviceUpdate) :
    ((setDevices ds s).filteredDevices =
        computeFilteredDevices (setDevices ds s).devices
          (setDevices ds s).searchQuery (setDevices ds s).deviceFilter ∧
      (setDevices ds s).filteredDevices ⊆ (setDevices ds s).devices) ∧
    ((setSearchQuery q s).filteredDevices =
        computeFilteredDevices (setSearchQuery q s).devices
          (setSearchQuery q s).searchQuery
          (setSearchQuery q s).deviceFilter ∧
      (setSearchQuery q s).filteredDevices ⊆ (setSearchQuery q s).devices) ∧
    ((setDeviceFilter f s).filteredDevices =
        computeFilteredDevices (setDeviceFilter f s).devices
          (setDeviceFilter f s).searchQuery
          (setDeviceFilter f s).deviceFilter ∧
      (setDeviceFilter f s).filteredDevices ⊆
        (setDeviceFilter f s).devices) ∧
    ((updateDevice i u s).filteredDevices =
        computeFilteredDevices (updateDevice i u s).devices
          (updateDevice i u s).searchQuery
          (updateDevice i u s).deviceFilter ∧
      (updateDevice i u s).filteredDevices ⊆ (updateDevice i u s).devices) := by
  refine ⟨⟨rfl, ?_⟩, ⟨rfl, ?_⟩, ⟨rfl, ?_⟩, ⟨rfl, ?_⟩⟩
  · intro d hd
    exact computeFilteredDevices_subset _ _ _ d hd
  · intro d hd
    exact computeFilteredDevices_subset _ _ _ d hd
  · intro d hd
    exact computeFilteredDevices_subset _ _ _ d hd
  · intro d hd
    exact computeFilteredDevices_subset _ _ _ d hd

/-- Sample devices for the concrete runs (values from `mockDevices` in
`mockData.ts`). -/
def demoDevice1 : Device :=
  ⟨1, "192.168.1.1", some "00:11:22:33:44:55", some "router.local",
    some "Router", some "TP-Link", some "主路由器",
    "2024-01-01T08:00:00", "2024-01-02T08:00:00", true, some "22,80,443"⟩

/-- Second sample device (offline). -/
def demoDevice2 : Device :=
  ⟨2, "192.168.1.10", some "00:11:22:33:44:66", some "desktop-work",
    some "Computer", some "Intel", some "工作电脑",
    "2024-01-01T09:00:00", "2024-01-01T10:00:00", false, some "22,3389"⟩

/-- A store holding the two sample devices. -/
def demoStore : DeviceStoreState :=
  setDevices [demoDevice1, demoDevice2] initialStoreState

/-- Concrete run of `store_filtered_in_sync` on the two-device store with
a search query and the online filter. -/
theorem store_filtered_in_sync_witness :
    ((setDevices [demoDevice1, demoDevice2] initialStoreState).filteredDevices =
        computeFilteredDevices
          (setDevices [demoDevice1, demoDevice2] initialStoreState).devices
          (setDevices [demoDevice1, demoDevice2] initialStoreState).searchQuery
          (setDevices [demoDevice1, demoDevice2]
            initialStoreState).deviceFilter ∧
      (setDevices [demoDevice1, demoDevice2] initialStoreState).filteredDevices ⊆
        (setDevices [demoDevice1, demoDevice2] initialStoreState).devices) ∧
    ((setSearchQuery "router" initialStoreState).filteredDevices =
        computeFilteredDevices
          (setSearchQuery "router" initialStoreState).devices
          (setSearchQuery "router" initialStoreState).searchQuery
          (setSearchQuery "router" initialStoreState).deviceFilter ∧
      (setSearchQuery "router" initialStoreState).filteredDevices ⊆
        (setSearchQuery "router" initialStoreState).devices) ∧
    ((setDeviceFilter DeviceFilter.online initialStoreState).filteredDevices =
        computeFilteredDevices
          (setDeviceFilter DeviceFilter.online initialStoreState).devices
          (setDeviceFilter DeviceFilter.online initialStoreState).searchQuery
          (setDeviceFilter DeviceFilter.online
            initialStoreState).deviceFilter ∧
      (setDeviceFilter DeviceFilter.online initialStoreState).filteredDevices ⊆
        (setDeviceFilter DeviceFilter.online initialStoreState).devices) ∧
    ((updateDevice 2 { custom_name := some (some "工作机") }
          initialStoreState).filteredDevices =
        computeFilteredDevices
          (updateDevice 2 { custom_name := some (some "工作机") }
            initialStoreState).devices
          (updateDevice 2 { custom_name := some (some "工作机") }
            initialStoreState).searchQuery
          (updateDevice 2 { custom_name := some (some "工作机") }
            initialStoreState).deviceFilter ∧
      (updateDevice 2 { custom_name := some (some "工作机") }
          initialStoreState).filteredDevices ⊆
        (updateDevice 2 { custom_name := some (some "工作机") }
          initialStoreState).devices) :=
  store_filtered_in_sync initialStoreState [demoDevice1, demoDevice2]
    "router" DeviceFilter.online 2 { custom_name := some (some "工作机") }

/-- C9.  `updateDevice` merges the update only into devices whose id
equals the given id: the list keeps its length and order, a device at any
position with a different id is unchanged, the device with the matching
id becomes the spread-merge of itself and the update, and every store
field other than `devices` and `filteredDevices` is unchanged. -/
theorem updateDevice_frame (s : DeviceStoreState) (i : ℕ)
    (u : DeviceUpdate) :
    (updateDevice i u s).devices.length = s.devices.length ∧
    (∀ (k : ℕ) (d : Device), s.devices[k]? = some d → d.id ≠ i →
        (updateDevice i u s).devices[k]? = some d) ∧
    (∀ (k : ℕ) (d : Device), s.devices[k]? = some d → d.id = i →
        (updateDevice i u s).devices[k]? = some (mergeDevice d u)) ∧
    (updateDevice i u s).onlineDevices = s.onlineDevices ∧
    (updateDevice i u s).networkStats = s.networkStats ∧
    (updateDevice i u s).scanStatus = s.scanStatus ∧
    (updateDevice i u s).scanSessions = s.scanSessions ∧
    (updateDevice i u s).searchQuery = s.searchQuery ∧
    (updateDevice i u s).selectedDevice = s.selectedDevice ∧
    (updateDevice i u s).isLoading = s.isLoading ∧
    (updateDevice i u s).error = s.error ∧
    (updateDevice i u s).deviceFilter = s.deviceFilter := by
  have hdev : (updateDevice i u s).devices =
      s.devices.map (fun d => if d.id = i then mergeDevice d u else d) := rfl
  refine ⟨?_, ?_, ?_, rfl, rfl, rfl, rfl, rfl, rfl, rfl, rfl, rfl⟩
  · rw [hdev, List.length_map]
  · intro k d hk hne
    rw [hdev, List.getElem?_map, hk]
    simp [hne]
  · intro k d hk heq
    rw [hdev, List.getElem?_map, hk]
    simp [heq]

/-- Concrete run of `updateDevice_frame`: renaming device 2 leaves device
1 and the rest of the store intact. -/
theorem updateDevice_frame_witness :
    (updateDevice 2 { custom_name := some (some "工作机") }
        demoStore).devices[0]? = some demoDevice1 ∧
    (updateDevice 2 { custom_name := some (some "工作机") }
        demoStore).devices[1]? =
      some (mergeDevice demoDevice2 { custom_name := some (some "工作机") }) ∧
    (updateDevice 2 { custom_name := some (some "工作机") }
        demoStore).searchQuery = demoStore.searchQuery :=
  ⟨(updateDevice_frame demoStore 2 _).2.1 0 demoDevice1 rfl (by decide),
   (updateDevice_frame demoStore 2 _).2.2.1 1 demoDevice2 rfl rfl,
   (updateDevice_frame demoStore 2 _).2.2.2.2.2.2.2.1⟩
